import Mathlib

/-!
# Verification of the WNTR scipy hydraulic simulator against its specification

Shallow embedding of the hydraulic-simulation core of the repository:

* `epanetlib/network/WaterNetworkModel.py` — the network data model and the
  pump head-curve coefficient derivation (`get_pump_coefficients`);
* `epanetlib/sim/ScipySimulator.py` — residual assembly for the hydraulic
  equations (`_hydraulic_equations` and the per-block residual methods), the
  extended-period loop (`run_sim`), the conditional-control machinery, and the
  regularized head-loss function (`LossFunc` / `LossFuncDeriv`);
* `wntr/network/NetworkControls.py` — control actions and conditional
  controls (`TargetAttributeControlAction`, `ConditionalControl`).

Python floats are modelled as real numbers; Python lists as Lean lists
(indexing `l[i]` becomes `l.getD i 0`, with list-length side conditions stated
as hypotheses where a theorem needs them); code that can raise is modelled
with `Except`.  Node and link names are mapped to their enumeration indices
(the simulator's `_node_name_to_id` / `_link_name_to_id` tables assign ids in
enumeration order), so the embedding identifies objects by `ℕ` id throughout.
The external `scipy.optimize.fsolve` routine is not part of the repository; it
enters the embedding only as an explicit function parameter.
-/

/-! ## Network data model (`epanetlib/network/WaterNetworkModel.py`)

Only the attributes read by the scipy simulator are carried.  A `Junction`
has an elevation; a `Reservoir` has a base head and an optional head-pattern
name (stored by `Reservoir.__init__`, lines 794-811); a `Tank` has elevation,
initial level and diameter.  Valves are rejected by the simulator
(`_headloss_residual` raises "Valves are currently not supported."), so links
are pipes and pumps; a pump is carried with its head-curve coefficients
`(A, B, C)` as returned by `get_head_curve_coefficients`. -/

inductive NNode where
  | junction (elevation : ℝ)
  | reservoir (base_head : ℝ) (head_pattern_name : Option String)
  | tank (elevation init_level diameter : ℝ)
deriving Inhabited

inductive NLink where
  | pipe (startNode endNode : ℕ) (length diameter roughness : ℝ)
  | pump (startNode endNode : ℕ) (A B C : ℝ)
deriving Inhabited

def NNode.isTank : NNode → Bool
  | .tank _ _ _ => true
  | _ => false

def NNode.isReservoir : NNode → Bool
  | .reservoir _ _ => true
  | _ => false

def NNode.isJunction : NNode → Bool
  | .junction _ => true
  | _ => false

/-- Accessor for the `node.elevation` attribute.  A Python `Reservoir` object has no
`elevation` attribute (reading it raises `AttributeError`); the simulator only
reads `elevation` for junctions, tanks and (in `run_sim`'s pressure column)
non-reservoir nodes, so the reservoir arm is never relied upon. -/
def NNode.elevation : NNode → ℝ
  | .junction e => e
  | .reservoir _ _ => 0
  | .tank e _ _ => e

def NLink.startNode : NLink → ℕ
  | .pipe s _ _ _ _ => s
  | .pump s _ _ _ _ => s

def NLink.endNode : NLink → ℕ
  | .pipe _ e _ _ _ => e
  | .pump _ e _ _ _ => e

/-- Conditional controls attached to one link: the four entry lists of
`wn.conditional_controls[link_name]` as read by `_apply_conditional_controls`
(keys `'open_above'`, `'open_below'`, `'closed_above'`, `'closed_below'`);
each entry is a `(node_name, threshold_value)` pair, the node name mapped to
its id. -/
structure CondControls where
  open_above : List (ℕ × ℝ)
  open_below : List (ℕ × ℝ)
  closed_above : List (ℕ × ℝ)
  closed_below : List (ℕ × ℝ)
deriving Inhabited

/-- The in-memory water network model: node and link objects in enumeration
order (the order in which the simulator's `__init__` assigns integer ids),
named patterns, and the conditional-controls dictionary keyed by link id. -/
structure WaterNetworkModel where
  nodes : List NNode
  links : List NLink
  patterns : List (String × List ℝ)
  conditional_controls : List (ℕ × CondControls)
deriving Inhabited

namespace WaterNetworkModel

def num_nodes (wn : WaterNetworkModel) : ℕ := wn.nodes.length

def num_links (wn : WaterNetworkModel) : ℕ := wn.links.length

/-- Node ids of the tanks, in node-enumeration order; position `k` of this
list is the node id of the tank with tank id `k` (the simulator's
`_tank_id_to_node_name` composed with `_node_name_to_id`). -/
def tankNodeIds (wn : WaterNetworkModel) : List ℕ :=
  ((List.range wn.nodes.length).filter
    (fun i => (wn.nodes.getD i default).isTank))

/-- Node ids of the reservoirs, in node-enumeration order (the simulator's
`_node_name_to_reservoir_id` assigns reservoir ids in this order). -/
def reservoirNodeIds (wn : WaterNetworkModel) : List ℕ :=
  ((List.range wn.nodes.length).filter
    (fun i => (wn.nodes.getD i default).isReservoir))

def num_tanks (wn : WaterNetworkModel) : ℕ := wn.tankNodeIds.length

def num_reservoirs (wn : WaterNetworkModel) : ℕ := wn.reservoirNodeIds.length

/-- The tank id of a tank node: tank ids are assigned in node-enumeration
order, so it is the number of tank nodes strictly before `nodeId`. -/
def tankIdOf (wn : WaterNetworkModel) (nodeId : ℕ) : ℕ :=
  ((wn.nodes.take nodeId).filter NNode.isTank).length

/-- The reservoir id of a reservoir node. -/
def reservoirIdOf (wn : WaterNetworkModel) (nodeId : ℕ) : ℕ :=
  ((wn.nodes.take nodeId).filter NNode.isReservoir).length

end WaterNetworkModel

/-! ## Residual assembly (`ScipySimulator._hydraulic_equations` and helpers)

The state vector `x` is the concatenation
`[flow (L), headloss (L), head (N), tank_inflow (T), reservoir_demand (R)]`
(source line 329).  Each residual method below mirrors the correspondingly
named method of `ScipySimulator` (source lines 314-535). -/

/-- Hazen-Williams resistance coefficient `self._Hw_k` (source line 92). -/
def Hw_k : ℝ := 10.67

/-- One node's flow expression: the loop over `get_links_for_node` in
`_node_balance_residual` (source lines 393-404) — subtract the flow of links
that start at the node, add the flow of links that end at it. -/
def nodeFlowExpr (links : List NLink) (flow : List ℝ) (n : ℕ) : ℝ :=
  (List.range links.length).foldl
    (fun expr i =>
      let link := links.getD i default
      if link.startNode = n then expr - flow.getD i 0
      else if link.endNode = n then expr + flow.getD i 0
      else expr) 0

/-- Method `_node_balance_residual` (source lines 372-420): one row per node in
enumeration order; the flow expression minus the junction demand, the tank
inflow variable, or the reservoir demand variable. -/
def nodeBalanceResidual (wn : WaterNetworkModel)
    (flow tank_inflow reservoir_demand nodal_demands : List ℝ) : List ℝ :=
  (List.range wn.nodes.length).map fun nodeId =>
    let expr := nodeFlowExpr wn.links flow nodeId
    match wn.nodes.getD nodeId default with
    | .junction _ => expr - nodal_demands.getD nodeId 0
    | .tank _ _ _ => expr - tank_inflow.getD (wn.tankIdOf nodeId) 0
    | .reservoir _ _ => expr - reservoir_demand.getD (wn.reservoirIdOf nodeId) 0

/-- Method `_headloss_residual` (source lines 422-451): one row per link in
enumeration order, skipping closed links (`if link_id in links_closed:
continue`).  Pipes use the Hazen-Williams relation, pumps the head-curve
relation `-A + B·|Q|^C`. -/
noncomputable def headlossResidual (wn : WaterNetworkModel) (headloss flow : List ℝ)
    (links_closed : List ℕ) : List ℝ :=
  ((List.range wn.links.length).filter (fun i => decide (i ∉ links_closed))).map
    fun i =>
      match wn.links.getD i default with
      | .pipe _ _ length diameter roughness =>
          let pipe_resistance_coeff :=
            Hw_k * roughness ^ (-(1.852 : ℝ)) * diameter ^ (-(4.871 : ℝ)) * length
          pipe_resistance_coeff * flow.getD i 0 * |flow.getD i 0| ^ (0.852 : ℝ)
            - headloss.getD i 0
      | .pump _ _ A B C =>
          -1.0 * A + B * |flow.getD i 0| ^ C - headloss.getD i 0

/-- Method `_head_residual` (source lines 453-474): one row per non-closed link:
`headloss[ℓ] − (head[start] − head[end])`. -/
def headResidual (wn : WaterNetworkModel) (head headloss : List ℝ)
    (links_closed : List ℕ) : List ℝ :=
  ((List.range wn.links.length).filter (fun i => decide (i ∉ links_closed))).map
    fun i =>
      let link := wn.links.getD i default
      headloss.getD i 0 - (head.getD link.startNode 0 - head.getD link.endNode 0)

/-- Method `_tank_head_residual` (source lines 476-496): one row per tank.  First
timestep: `head[tank] − (init_level + elevation)`; later timesteps:
`(tank_inflow·Δt·4)/(π·D²) − (head[tank] − last_tank_head[tank])`. -/
noncomputable def tankHeadResidual (wn : WaterNetworkModel) (head tank_inflow last_tank_head : List ℝ)
    (first_timestep : Bool) (hydraulic_step_sec : ℝ) : List ℝ :=
  wn.tankNodeIds.map fun nodeId =>
    let tankId := wn.tankIdOf nodeId
    match wn.nodes.getD nodeId default with
    | .tank elevation init_level diameter =>
        if first_timestep then
          head.getD nodeId 0 - (init_level + elevation)
        else
          (tank_inflow.getD tankId 0 * hydraulic_step_sec * 4.0)
              / (Real.pi * diameter ^ (2 : ℕ))
            - (head.getD nodeId 0 - last_tank_head.getD tankId 0)
    | _ => 0

/-- Method `_reservoir_head_residual` (source lines 498-510): one row per reservoir,
`head[res] − reservoir.base_head`.  The reservoir's head pattern is not
consulted (the source's TODO list, line 8, records "Support for reservoir
head patterns" as missing). -/
def reservoirHeadResidual (wn : WaterNetworkModel) (head : List ℝ) : List ℝ :=
  wn.reservoirNodeIds.map fun nodeId =>
    match wn.nodes.getD nodeId default with
    | .reservoir base_head _ => head.getD nodeId 0 - base_head
    | _ => 0

/-- Method `_closed_link_flow_residual` (source lines 512-522): one row per closed
link, in `links_closed` order: `flow[ℓ]`. -/
def closedLinkFlowResidual (flow : List ℝ) (links_closed : List ℕ) : List ℝ :=
  links_closed.map fun l => flow.getD l 0

/-- Method `_closed_link_headloss_residual` (source lines 524-535): one row per
closed link: `headloss[ℓ]`. -/
def closedLinkHeadlossResidual (headloss : List ℝ) (links_closed : List ℕ) : List ℝ :=
  links_closed.map fun l => headloss.getD l 0

/-- Method `_hydraulic_equations` (source lines 314-370): slice the state vector
`x = [flow, headloss, head, tank_inflow, reservoir_demand]` and concatenate
the residual blocks in source order. -/
noncomputable def hydraulicEquations (wn : WaterNetworkModel) (x : List ℝ)
    (last_tank_head nodal_demands : List ℝ) (first_timestep : Bool)
    (links_closed : List ℕ) (hydraulic_step_sec : ℝ) : List ℝ :=
  let L := wn.num_links
  let N := wn.num_nodes
  let T := wn.num_tanks
  let flow := x.take L
  let headloss := (x.drop L).take L
  let head := (x.drop (2 * L)).take N
  let tank_inflow := (x.drop (2 * L + N)).take T
  let reservoir_demand := (x.drop (2 * L + N + T)).take wn.num_reservoirs
  nodeBalanceResidual wn flow tank_inflow reservoir_demand nodal_demands
    ++ headlossResidual wn headloss flow links_closed
    ++ headResidual wn head headloss links_closed
    ++ tankHeadResidual wn head tank_inflow last_tank_head first_timestep hydraulic_step_sec
    ++ reservoirHeadResidual wn head
    ++ closedLinkFlowResidual flow links_closed
    ++ closedLinkHeadlossResidual headloss links_closed

/-! ## Regularized head-loss function (`ScipySimulator` lines 621-677)

`f1`, `f2`, `Px` are the three pieces of the regularization, `d_f1`, `d_f2`,
`d_Px` their derivative formulas, and `LossFunc` / `LossFuncDeriv` the
piecewise dispatch with thresholds `q₁ = 0.00349347323944` and
`q₂ = 0.00549347323944`. -/

/-- Function `f1(x) = 0.01*x` (source lines 621-622). -/
def f1 (x : ℝ) : ℝ := 0.01 * x

/-- Function `f2(x) = 1.0*x**1.852` (source lines 625-626). -/
noncomputable def f2 (x : ℝ) : ℝ := 1.0 * x ^ (1.852 : ℝ)

/-- Function `Px(x)`, the transitional cubic (source lines 629-631, the uncommented
coefficient set). -/
def Px (x : ℝ) : ℝ :=
  2.45944613543e-06 + 0.0138413824671 * x - 2.80374270811 * x ^ (2 : ℕ)
    + 430.125623753 * x ^ (3 : ℕ)

/-- Function `d_f1(x) = 0.01` (source lines 633-634). -/
def d_f1 (_x : ℝ) : ℝ := 0.01

/-- Function `d_f2(x) = 1.852*x**0.852` (source lines 637-638). -/
noncomputable def d_f2 (x : ℝ) : ℝ := 1.852 * x ^ (0.852 : ℝ)

/-- Function `d_Px(x)` (source lines 641-643). -/
def d_Px (x : ℝ) : ℝ :=
  0.0138413824671 - 2 * 2.80374270811 * x + 3 * 430.125623753 * x ^ (2 : ℕ)

/-- Lower regularization threshold `q1` (source lines 650, 668). -/
def q1 : ℝ := 0.00349347323944

/-- Upper regularization threshold `q2` (source lines 651, 669). -/
def q2 : ℝ := 0.00549347323944

/-- Function `LossFunc(Q)` (source lines 645-662): piecewise on `|Q|`, sign of the
result following the sign of `Q`. -/
noncomputable def LossFunc (Q : ℝ) : ℝ :=
  let abs_Q := |Q|
  let headloss :=
    if abs_Q < q1 then f1 abs_Q
    else if abs_Q > q2 then f2 abs_Q
    else Px abs_Q
  if Q < 0 then -1 * headloss else headloss

/-- Function `LossFuncDeriv(abs_Q)` (source lines 664-677). -/
noncomputable def LossFuncDeriv (abs_Q : ℝ) : ℝ :=
  if abs_Q < q1 then d_f1 abs_Q
  else if abs_Q > q2 then d_f2 abs_Q
  else d_Px abs_Q

/-! ## Pump head-curve coefficients
(`WaterNetworkModel.get_pump_coefficients`, source lines 455-534)

For a 1-point curve the closed-form EPANET coefficients are returned.  For a
3-point curve the source contains an analytical branch for curves whose first
point is at zero flow, but that branch is guarded by `if False:` (line 514;
the original guard `if Q_1 == 0.0:` is commented out at line 513), so the
source unconditionally calls `scipy.optimize.fsolve` on the 3-equation system
`H_i = A − B·Q_i^C` with initial guess `[200, 1e-3, 1.5]`.  `fsolve` is
external to the repository, so the embedding records *which* computation the
source performs, keeping the fsolve call symbolic: `newtonFit points guess`
stands for "return whatever `fsolve(curve_fit, guess)` produces for this
system".  Multi-point curves raise a `RuntimeError`. -/

inductive PumpCoeffResult where
  /-- coefficients returned directly by a closed-form branch -/
  | coeffs (A B C : ℝ)
  /-- the `fsolve(curve_fit, [200, 1e-3, 1.5])` call on the 3-point system
  built from `points`; the result is whatever the external solver returns -/
  | newtonFit (points : List (ℝ × ℝ)) (guess : ℝ × ℝ × ℝ)
  /-- `RuntimeError("Coefficient for Multipoint pump curves cannot be generated. ")` -/
  | multiPointError

/-- The dead analytical zero-flow branch body (source lines 515-518):
`A = H₁`, `C = ln((H₁−H₂)/(H₁−H₃))/ln(Q₂/Q₃)`, `B = (H₁−H₂)/Q₂^C`. -/
noncomputable def analyticalThreePoint (H_1 Q_2 H_2 Q_3 H_3 : ℝ) : PumpCoeffResult :=
  let A := H_1
  let C := Real.log ((H_1 - H_2) / (H_1 - H_3)) / Real.log (Q_2 / Q_3)
  let B := (H_1 - H_2) / Q_2 ^ C
  .coeffs A B C

/-- Method `get_pump_coefficients` (source lines 455-534), dispatching on the number
of curve points.  In the 3-point arm the zero-flow test is literally `False`
in the source, so the analytical branch is unreachable and every 3-point
curve goes to the fsolve call. -/
noncomputable def get_pump_coefficients (points : List (ℝ × ℝ)) : PumpCoeffResult :=
  if points.length = 1 then
    let Q_1 := (points.getD 0 (0, 0)).1
    let H_1 := (points.getD 0 (0, 0)).2
    .coeffs ((4.0 / 3.0) * H_1) ((1.0 / 3.0) * (H_1 / Q_1 ^ (2 : ℕ))) 2
  else if points.length = 3 then
    let Q_2 := (points.getD 1 (0, 0)).1
    let H_1 := (points.getD 0 (0, 0)).2
    let H_2 := (points.getD 1 (0, 0)).2
    let Q_3 := (points.getD 2 (0, 0)).1
    let H_3 := (points.getD 2 (0, 0)).2
    if False then
      analyticalThreePoint H_1 Q_2 H_2 Q_3 H_3
    else
      .newtonFit points (200, 1e-3, 1.5)
  else
    .multiPointError

/-! ## Control actions (`wntr/network/NetworkControls.py`)

### `TargetAttributeControlAction._FireControlActionImpl` (lines 59-81)

The method body is

```
target = self._target_obj_ref()
assert target is not None, ...
if target is not None:
    assert hasattr(target, self._attribute), ...
    setattr(target, self._attribute, value)
```

The `setattr` call references the bare identifier `value`.  Python resolves a
bare name through the local scope, then the enclosing/module scope, then the
builtins.  At that call site the local scope binds exactly `self` and
`target`; the module scope of `NetworkControls.py` binds `weakref`, `np` and
the five classes it defines; no scope binds `value` (the configured new value
is stored as the attribute `self._value` and is only reachable as
`self._value`).  Evaluating `value` therefore raises `NameError`.  The
embedding performs the same name resolution over an explicit environment. -/

/-- Python runtime values, as far as this module needs them: modules, classes
and object attribute values (floats). -/
inductive PyVal where
  | module (name : String)
  | classObj (name : String)
  | obj (name : String)
  | num (v : ℝ)

/-- Errors a modelled method can raise. -/
inductive PyError where
  | nameError (name : String)
  | assertionError (message : String)
deriving DecidableEq

/-- A `TargetAttributeControlAction`: whether the weak reference
`self._target_obj_ref()` still yields the target, the set of attribute names
the target object has, and the constructor-stored `self._attribute` and
`self._value`. -/
structure TargetAttributeControlAction where
  targetAlive : Bool
  targetAttrs : List String
  attributeName : String
  value : ℝ

/-- Name-to-value environment at the `setattr` call site of
`_FireControlActionImpl`: locals (`self`, `target`) first, then the module
globals of `NetworkControls.py` (`weakref`, `np`, and the classes defined in
the file).  Builtins bind no name used here. -/
def fireCallSiteEnv : List (String × PyVal) :=
  [("self", .obj "self"), ("target", .obj "target"),
   ("weakref", .module "weakref"), ("np", .module "numpy"),
   ("ControlAction", .classObj "ControlAction"),
   ("TargetAttributeControlAction", .classObj "TargetAttributeControlAction"),
   ("Control", .classObj "Control"),
   ("TimeControl", .classObj "TimeControl"),
   ("ConditionalControl", .classObj "ConditionalControl")]

/-- Python bare-name resolution over an environment. -/
def resolveName (env : List (String × PyVal)) (n : String) : Option PyVal :=
  (env.find? (fun p => p.1 == n)).map (·.2)

/-- The observable outcome of firing the action: which attribute of the
target was set, and to what. -/
structure AttrUpdate where
  attributeName : String
  newValue : PyVal

/-- Method `TargetAttributeControlAction._FireControlActionImpl` (source lines
68-81): dereference the weak reference, assert it is alive, assert the target
has the attribute, then execute `setattr(target, self._attribute, value)` —
whose value argument is the resolution of the bare name `value`. -/
def fireControlActionImpl (a : TargetAttributeControlAction) :
    Except PyError AttrUpdate :=
  if a.targetAlive = false then
    .error (.assertionError "target is None inside TargetAttribureControlAction::_FireControlActionImpl")
  else if ¬ (a.attributeName ∈ a.targetAttrs) then
    .error (.assertionError "attribute specified in TargetAttributeControlAction is not valid for targe_obj")
  else
    match resolveName fireCallSiteEnv "value" with
    | some v => .ok ⟨a.attributeName, v⟩
    | none => .error (.nameError "value")

/-- What the spec prescribes for `fire`: set the configured attribute of the
target to the configured new value `self._value`.  (Modelled from the spec:
"**fire(network)** — applies the action", with the action being "target
object + attribute + new value".) -/
def fireControlActionSpec (a : TargetAttributeControlAction) :
    Except PyError AttrUpdate :=
  .ok ⟨a.attributeName, .num a.value⟩

/-! ### `ConditionalControl._IsControlActionRequiredImpl` (lines 352-372)

The method evaluates the comparison `self._operation(value, self._threshold)`
on the monitored value; when it holds it performs the linear interpolation

```
m = (value - self._prev_value)/(wnm.time_sec - self._prev_time)
new_time = (self._threshold - self._prev_value)/m + self._prev_time
return (True, new_time)
```

and otherwise records the current value/time and returns `(False, None)`.
(The source reads the monitored value through the bare names
`source_obj`/`source_attribute` and the previous time through
`self._prev_time`/`wnm.time_sec`; the embedding takes the monitored value,
the current time and the recorded previous value/time as arguments.) -/

noncomputable def isControlActionRequiredImpl (operation : ℝ → ℝ → Bool)
    (threshold prev_time prev_value time value : ℝ) : Bool × Option ℝ :=
  if operation value threshold then
    let m := (value - prev_value) / (time - prev_time)
    let new_time := (threshold - prev_value) / m + prev_time
    (true, some new_time)
  else
    (false, none)

/-- The backtrack value the spec prescribes for `is_action_required`: "how
far back from the current simulated time the actual crossing occurred", the
crossing located by linear interpolation
`t_cross = t⁻ + (threshold − v⁻)·(t − t⁻)/(v − v⁻)`.  (Modelled from the
spec, §4.4.) -/
noncomputable def specBacktrackSec (threshold prev_time prev_value time value : ℝ) : ℝ :=
  time - (prev_time + (threshold - prev_value) * (time - prev_time) / (value - prev_value))

/-! ## The extended-period loop (`ScipySimulator.run_sim`, source lines 96-312)

The pieces of `run_sim` that are external to the repository enter as explicit
parameters of `SimParams`:

* `scipy.optimize.fsolve` (line 190) as `solver`, a function from the warm
  start `prev_X` and the residual-assembly arguments to the returned pair
  `(x, flag)`;
* the demand table built from `WaterNetworkSimulator.get_node_demand`
  (lines 101-110; the `WaterNetworkSimulator` base class is not part of the
  repository sources) as `demands`;
* the time-control link-status table built from
  `WaterNetworkSimulator.is_link_open` (lines 112-120, same missing base
  class) as `pipesClosed`, the list of closed pipe ids at each timestep
  (lines 178-182).

With those fixed, every remaining step of the loop body is embedded from the
source. -/

/-- One row of the node results table (lines 244-267): name key (node id),
time key, and the `head`, `demand`, `pressure`, `type` columns. -/
structure NodeRow where
  node : ℕ
  time : ℕ
  head : ℝ
  demand : ℝ
  pressure : ℝ
  ntype : String

/-- One row of the link results table (lines 269-281): name key (link id),
time key, and the `flowrate`, `velocity`, `type` columns. -/
structure LinkRow where
  link : ℕ
  time : ℕ
  flowrate : ℝ
  velocity : ℝ
  ltype : String

/-- The mutable state carried across iterations of the main simulation loop:
`self._X`, `last_tank_head`, `pumps_closed`, and the accumulated results
rows. -/
structure LoopState where
  x : List ℝ
  last_tank_head : List ℝ
  pumps_closed : List ℕ
  node_rows : List NodeRow
  link_rows : List LinkRow

/-- Simulation inputs: the network, the options, and the external
collaborators (see the section comment). -/
structure SimParams where
  wn : WaterNetworkModel
  n_timesteps : ℕ
  hydraulic_step_sec : ℝ
  demands : ℕ → ℕ → ℝ
  pipesClosed : ℕ → List ℕ
  solver : List ℝ → List ℝ → List ℝ → Bool → List ℕ → (List ℝ × ℤ)

/-- The initial state vector `self._X` built by `ScipySimulator.__init__`
(source lines 75-85): flows 0.1, headlosses 10.0, heads 200.0 except tanks at
`init_level + elevation`, tank inflows 0.1, reservoir demands 1.0. -/
def initX (wn : WaterNetworkModel) : List ℝ :=
  (wn.links.map fun _ => (0.1 : ℝ))
    ++ (wn.links.map fun _ => (10.0 : ℝ))
    ++ ((List.range wn.nodes.length).map fun n =>
          match wn.nodes.getD n default with
          | .tank elevation init_level _ => init_level + elevation
          | _ => (200.0 : ℝ))
    ++ (wn.tankNodeIds.map fun _ => (0.1 : ℝ))
    ++ (wn.reservoirNodeIds.map fun _ => (1.0 : ℝ))

/-- Loop state on entry to the main loop (lines 162-164): `pumps_closed = []`,
no rows recorded; `last_tank_head` is created inside the `t = 0` iteration. -/
def initLoopState (wn : WaterNetworkModel) : LoopState :=
  ⟨initX wn, [], [], [], []⟩

/-- The `last_tank_head` list visible to the solver at step `t`: at `t = 0`
it is freshly built as `tank.elevation + tank.init_level` per tank (lines
166-171); afterwards it is the carried list. -/
def prepLastTankHead (wn : WaterNetworkModel) (t : ℕ) (s : LoopState) : List ℝ :=
  if t = 0 then
    wn.tankNodeIds.map fun n =>
      match wn.nodes.getD n default with
      | .tank elevation init_level _ => elevation + init_level
      | _ => 0
  else s.last_tank_head

/-- List `current_demands` at step `t` (line 176). -/
def demandsAt (P : SimParams) (t : ℕ) : List ℝ :=
  (List.range P.wn.nodes.length).map fun n => P.demands n t

/-- List `links_closed = pipes_closed + pumps_closed` at step `t` (line 185). -/
def linksClosedAt (P : SimParams) (t : ℕ) (s : LoopState) : List ℕ :=
  P.pipesClosed t ++ s.pumps_closed

/-- Method `_apply_conditional_controls` (source lines 564-614): sequentially
process, for each controlled link, the `open_below`, `closed_above`,
`open_above`, `closed_below` entry lists, removing the link id from
`pumps_closed` (`list.remove`, first occurrence) or appending it
(`list.append`), comparing the current tank level `head[node] − elevation`
with each entry's threshold. -/
noncomputable def applyConditionalControls (wn : WaterNetworkModel) (head : List ℝ)
    (pumps_closed : List ℕ) : List ℕ :=
  wn.conditional_controls.foldl
    (fun pc (entry : ℕ × CondControls) =>
      let link_id_k := entry.1
      let cc := entry.2
      let level := fun (n : ℕ) => head.getD n 0 - (wn.nodes.getD n default).elevation
      let pc := cc.open_below.foldl
        (fun pc i =>
          if link_id_k ∈ pc then
            if level i.1 ≤ i.2 then pc.erase link_id_k else pc
          else pc) pc
      let pc := cc.closed_above.foldl
        (fun pc i =>
          if link_id_k ∉ pc ∧ level i.1 ≥ i.2 then pc ++ [link_id_k] else pc) pc
      let pc := cc.open_above.foldl
        (fun pc i =>
          if link_id_k ∈ pc then
            if level i.1 ≥ i.2 then pc.erase link_id_k else pc
          else pc) pc
      let pc := cc.closed_below.foldl
        (fun pc i =>
          if link_id_k ∉ pc ∧ level i.1 ≤ i.2 then pc ++ [link_id_k] else pc) pc
      pc)
    pumps_closed

/-- Node results rows appended at step `t` (lines 244-267). -/
noncomputable def nodeRowsAt (wn : WaterNetworkModel) (t : ℕ)
    (head tank_inflow reservoir_demand current_demands : List ℝ) : List NodeRow :=
  (List.range wn.nodes.length).map fun n =>
    match wn.nodes.getD n default with
    | .junction elevation =>
        ⟨n, t, head.getD n 0, current_demands.getD n 0,
          head.getD n 0 - elevation, "junction"⟩
    | .reservoir _ _ =>
        ⟨n, t, head.getD n 0, reservoir_demand.getD (wn.reservoirIdOf n) 0,
          0.0, "reservoir"⟩
    | .tank elevation _ _ =>
        ⟨n, t, head.getD n 0, tank_inflow.getD (wn.tankIdOf n) 0,
          head.getD n 0 - elevation, "tank"⟩

/-- Link results rows appended at step `t` (lines 269-281): velocity is
`4·|Q|/(π·d²)` for pipes and `0.0` otherwise. -/
noncomputable def linkRowsAt (wn : WaterNetworkModel) (t : ℕ)
    (flow : List ℝ) : List LinkRow :=
  (List.range wn.links.length).map fun l =>
    match wn.links.getD l default with
    | .pipe _ _ _ diameter _ =>
        ⟨l, t, flow.getD l 0,
          4.0 * |flow.getD l 0| / (Real.pi * diameter ^ (2 : ℕ)), "pipe"⟩
    | .pump _ _ _ _ _ =>
        ⟨l, t, flow.getD l 0, 0.0, "pump"⟩

/-- Everything the loop body does after the `fsolve` call returns `x`
(source lines 194-281): commit `self._X = x` (both the converged and the
non-converged branch assign `x`, lines 195-199), slice the state vector,
overwrite `last_tank_head` from the committed heads (lines 234-236), apply
the conditional controls (line 239), and append the results rows. -/
noncomputable def commitStep (P : SimParams) (t : ℕ) (s : LoopState) (x : List ℝ) :
    LoopState :=
  let wn := P.wn
  let L := wn.num_links
  let N := wn.num_nodes
  let T := wn.num_tanks
  let X := x
  let flow := X.take L
  let head := (X.drop (2 * L)).take N
  let tank_inflow := (X.drop (2 * L + N)).take T
  let reservoir_demand := (X.drop (2 * L + N + T)).take wn.num_reservoirs
  let last_tank_head := wn.tankNodeIds.map fun n => head.getD n 0
  let pumps_closed := applyConditionalControls wn head s.pumps_closed
  { x := X
    last_tank_head := last_tank_head
    pumps_closed := pumps_closed
    node_rows := s.node_rows ++ nodeRowsAt wn t head tank_inflow reservoir_demand (demandsAt P t)
    link_rows := s.link_rows ++ linkRowsAt wn t flow }

/-- One iteration of the main simulation loop as a step relation.  The
`fsolve` call (line 190) returns `(x, flag)`; the source's convergence test
(lines 194-199) assigns `self._X = x` in *both* branches, so the two
constructors commit the same state and differ only in the convergence flag
they observed. -/
inductive SimStep (P : SimParams) : ℕ → LoopState → LoopState → Prop where
  | converged (t : ℕ) (s : LoopState) (x : List ℝ) (flag : ℤ)
      (hsolve : P.solver s.x (prepLastTankHead P.wn t s) (demandsAt P t)
          (t == 0) (linksClosedAt P t s) = (x, flag))
      (hflag : flag = 1) :
      SimStep P t s (commitStep P t s x)
  | nonConverged (t : ℕ) (s : LoopState) (x : List ℝ) (flag : ℤ)
      (hsolve : P.solver s.x (prepLastTankHead P.wn t s) (demandsAt P t)
          (t == 0) (linksClosedAt P t s) = (x, flag))
      (hflag : flag ≠ 1) :
      SimStep P t s (commitStep P t s x)

/-- The whole main loop, `for t in xrange(n_timesteps)` (line 165), as a
big-step relation from the state before iteration `t` to the state after the
last iteration. -/
inductive SimRun (P : SimParams) : ℕ → LoopState → LoopState → Prop where
  | done (t : ℕ) (s : LoopState) (h : t = P.n_timesteps) : SimRun P t s s
  | step (t : ℕ) (s s' s'' : LoopState) (hlt : t < P.n_timesteps)
      (hstep : SimStep P t s s') (hrest : SimRun P (t + 1) s' s'') :
      SimRun P t s s''

/-- Method `_verify_conditional_controls_for_tank` (source lines 556-562): every
node monitored by any conditional control must be a `Tank`, otherwise the
`assert` fails. -/
def verifyConditionalControlsForTank (wn : WaterNetworkModel) : Bool :=
  wn.conditional_controls.all fun entry =>
    (entry.2.open_above ++ entry.2.open_below
        ++ entry.2.closed_above ++ entry.2.closed_below).all
      fun i => (wn.nodes.getD i.1 default).isTank

/-- The functional form of the main loop: iterate the committed step body
(`SimStep` always commits `commitStep … x` with `x` the solver's output). -/
noncomputable def runLoop (P : SimParams) : LoopState :=
  (List.range P.n_timesteps).foldl
    (fun s t =>
      commitStep P t s
        (P.solver s.x (prepLastTankHead P.wn t s) (demandsAt P t)
          (t == 0) (linksClosedAt P t s)).1)
    (initLoopState P.wn)

/-- Method `run_sim` up to and including the main loop (source lines 96-283): the
conditional-control assertion (lines 158-159) runs before the loop starts
(line 165); if it fails, `AssertionError` propagates and no loop iteration
executes. -/
noncomputable def run_sim (P : SimParams) :
    Except PyError (List NodeRow × List LinkRow) :=
  if verifyConditionalControlsForTank P.wn then
    let final := runLoop P
    .ok (final.node_rows, final.link_rows)
  else
    .error (.assertionError "Scipy simulator only supports conditional controls on Tank.")

/-! ## Specification-side definitions

These definitions follow the specification's words (not the source); they
exist to be compared against the source-derived definitions above. -/

/-- Pattern lookup as the specification defines it (§3, Patterns): a pattern
is "a finite ordered sequence of multipliers; indexed at time t by
`floor((t − pattern_start) / pattern_step) mod len`".  (Modelled from the
spec.) -/
def patternAtSpec (multipliers : List ℝ) (pattern_start pattern_step t : ℕ) : ℝ :=
  multipliers.getD (((t - pattern_start) / pattern_step) % multipliers.length) 0

/-- Reservoir-head residual as the specification prescribes it (§4.2):
"**Reservoir head fixing.** `head[res] − base_head · pattern(t) = 0`", with
the reservoir's optional head pattern (§3) defaulting to the constant
multiplier 1 when absent.  (Modelled from the spec.) -/
def reservoirHeadResidualSpec (wn : WaterNetworkModel) (head : List ℝ)
    (pattern_start pattern_step t : ℕ) : List ℝ :=
  wn.reservoirNodeIds.map fun nodeId =>
    match wn.nodes.getD nodeId default with
    | .reservoir base_head head_pattern_name =>
        let multiplier :=
          match head_pattern_name with
          | some pname =>
              match wn.patterns.find? (fun p => p.1 == pname) with
              | some p => patternAtSpec p.2 pattern_start pattern_step t
              | none => 1
          | none => 1
        head.getD nodeId 0 - base_head * multiplier
    | _ => 0

/-! ## Concrete test networks (used by counterexamples and witnesses) -/

/-- A two-node network: one reservoir (base head 100, no pattern) feeding one
tank (elevation 10, initial level 5, diameter 2) through one pipe. -/
def wn3 : WaterNetworkModel :=
  { nodes := [.reservoir 100 none, .tank 10 5 2]
    links := [.pipe 0 1 100 1 100]
    patterns := []
    conditional_controls := [] }

/-- A network whose reservoir (base head 10) carries the head pattern
`"pat"` with multiplier sequence `[2]`. -/
def wnC2 : WaterNetworkModel :=
  { nodes := [.reservoir 10 (some "pat"), .junction 5]
    links := [.pipe 0 1 100 1 100]
    patterns := [("pat", [2])]
    conditional_controls := [] }

/-- A mid-simulation loop state for `wn3`: carried tank head 15, state
vector all zeros (length 2L+N+T+R = 6). -/
def s3 : LoopState :=
  ⟨[0, 0, 0, 0, 0, 0], [15], [], [], []⟩

/-- The state vector a (non-converged) solver call is taken to return for
`wn3`: flow 0.2, headloss 9, heads 100 and 16, tank inflow 0.1, reservoir
demand 1. -/
def x3 : List ℝ := [0.2, 9, 100, 16, 0.1, 1]

/-- Simulation parameters for `wn3` whose solver always reports
non-convergence (`fsolve` flag 2 ≠ 1) while returning `x3`. -/
noncomputable def P3 : SimParams :=
  { wn := wn3
    n_timesteps := 2
    hydraulic_step_sec := 3600
    demands := fun _ _ => 0
    pipesClosed := fun _ => []
    solver := fun _ _ _ _ _ => (x3, 2) }

/-- Simulation parameters for `wn3` whose solver always converges (flag 1)
returning `x3`, with a single timestep. -/
noncomputable def P9 : SimParams :=
  { wn := wn3
    n_timesteps := 1
    hydraulic_step_sec := 3600
    demands := fun _ _ => 0
    pipesClosed := fun _ => []
    solver := fun _ _ _ _ _ => (x3, 1) }

/-! ## Claim theorems -/

/-- C1: the claim says that for a three-point pump head curve whose first
point is at zero flow, `get_pump_coefficients` returns the analytical
coefficients `A = H₁`, `C = ln((H₁−H₂)/(H₁−H₃))/ln(Q₂/Q₃)`,
`B = (H₁−H₂)/Q₂^C`.  The analytical branch is guarded by `if False:` in the
source (line 514), so at the zero-flow curve `(0,30),(2,25),(4,10)` the
method instead hands the three-equation system to the external `fsolve` with
initial guess `[200, 1e-3, 1.5]` and never produces closed-form
coefficients. -/
theorem get_pump_coefficients_zero_flow_takes_fsolve_branch :
    get_pump_coefficients [((0 : ℝ), (30 : ℝ)), (2, 25), (4, 10)]
        = PumpCoeffResult.newtonFit [(0, 30), (2, 25), (4, 10)] (200, 1e-3, 1.5)
      ∧ ∀ A B C : ℝ,
          get_pump_coefficients [((0 : ℝ), (30 : ℝ)), (2, 25), (4, 10)]
            ≠ PumpCoeffResult.coeffs A B C := by
  refine ⟨rfl, ?_⟩
  intro A B C h
  rw [show get_pump_coefficients [((0 : ℝ), (30 : ℝ)), (2, 25), (4, 10)]
        = PumpCoeffResult.newtonFit [(0, 30), (2, 25), (4, 10)] (200, 1e-3, 1.5)
      from rfl] at h
  exact PumpCoeffResult.noConfusion h

/-- C4: the claim says `is_action_required` returns `(True, b)` with `b` the
amount of time *back from the current simulated time* at which the threshold
crossing occurred, the crossing located by linear interpolation.  With
monitored history `v⁻ = 0` at `t⁻ = 10` and current value `v = 10` at
`t = 20`, threshold `5` and comparison `greater_equal`, the interpolated
crossing is `t_cross = 15`, so the claimed backtrack is `t − t_cross = 5` —
but the source returns `new_time = (threshold − v⁻)/m + t⁻`, the *absolute*
crossing time `15`.  (The base class `Control.IsControlActionRequired`
documents the second component as "a recommended time for the simulation to
backup (in seconds as a positive number)".) -/
theorem conditional_control_returns_absolute_crossing_time :
    isControlActionRequiredImpl (fun v th => decide (th ≤ v)) 5 10 0 20 10
        = (true, some 15)
      ∧ specBacktrackSec 5 10 0 20 10 = 5
      ∧ (15 : ℝ) ≠ 5 := by
  refine ⟨?_, ?_, by norm_num⟩
  · unfold isControlActionRequiredImpl
    norm_num
  · unfold specBacktrackSec
    norm_num

/-- C5: the claim says firing a `TargetAttributeControlAction` (alive target,
valid attribute) sets the configured attribute to the configured new value.
The source's `setattr(target, self._attribute, value)` references the bare
name `value`, which no enclosing scope binds (the stored value is
`self._value`), so the call raises `NameError` and no attribute is ever
set. -/
theorem fire_control_action_raises_name_error :
    fireControlActionImpl ⟨true, ["status"], "status", 0⟩
        = Except.error (PyError.nameError "value")
      ∧ ∀ u : AttrUpdate,
          fireControlActionImpl ⟨true, ["status"], "status", 0⟩ ≠ Except.ok u := by
  refine ⟨rfl, ?_⟩
  intro u h
  rw [show fireControlActionImpl ⟨true, ["status"], "status", 0⟩
        = Except.error (PyError.nameError "value") from rfl] at h
  exact Except.noConfusion h

/-- C2 counterexample: the claim says the assembled reservoir-head residual
is `head[res] − base_head · pattern(t)`.  On the network `wnC2`, whose
reservoir has base head 10 and head pattern `[2]`, with trial heads `[0, 0]`
the source residual is `[−10]` while the claimed formula gives `[−20]`: the
source never applies the head pattern (its TODO list, line 8, still lists
reservoir head patterns as unsupported). -/
theorem reservoir_residual_ignores_pattern_cex :
    reservoirHeadResidual wnC2 [0, 0] = [-10]
      ∧ reservoirHeadResidualSpec wnC2 [0, 0] 0 3600 0 = [-20]
      ∧ reservoirHeadResidual wnC2 [0, 0] ≠ reservoirHeadResidualSpec wnC2 [0, 0] 0 3600 0 := by
  refine ⟨?_, ?_, ?_⟩
  · simp [reservoirHeadResidual, wnC2, WaterNetworkModel.reservoirNodeIds,
      List.range_succ, NNode.isReservoir]
  · simp [reservoirHeadResidualSpec, wnC2, WaterNetworkModel.reservoirNodeIds,
      List.range_succ, NNode.isReservoir, patternAtSpec]
    norm_num
  · intro h
    rw [show reservoirHeadResidual wnC2 [0, 0] = [-10] from by
          simp [reservoirHeadResidual, wnC2, WaterNetworkModel.reservoirNodeIds,
            List.range_succ, NNode.isReservoir],
        show reservoirHeadResidualSpec wnC2 [0, 0] 0 3600 0 = [-20] from by
          simp [reservoirHeadResidualSpec, wnC2, WaterNetworkModel.reservoirNodeIds,
            List.range_succ, NNode.isReservoir, patternAtSpec]
          norm_num] at h
    simp at h

/-- C2 amended: the assembled reservoir-head residual row for reservoir `k`
(at node `nodeId`) is `head[res] − base_head`, with no pattern factor: the
reservoir head is fixed to the base head at every timestep. -/
theorem reservoir_residual_is_head_minus_base_head
    (wn : WaterNetworkModel) (head : List ℝ) (k nodeId : ℕ)
    (base_head : ℝ) (hp : Option String)
    (hk : k < wn.num_reservoirs)
    (hnode : wn.reservoirNodeIds.getD k 0 = nodeId)
    (hres : wn.nodes.getD nodeId default = .reservoir base_head hp) :
    (reservoirHeadResidual wn head).getD k 0 = head.getD nodeId 0 - base_head := by
  unfold reservoirHeadResidual
  have hlen : k < (wn.reservoirNodeIds.map fun nodeId =>
      match wn.nodes.getD nodeId default with
      | .reservoir base_head _ => head.getD nodeId 0 - base_head
      | _ => (0 : ℝ)).length := by
    simpa [WaterNetworkModel.num_reservoirs] using hk
  rw [List.getD_eq_getElem _ _ hlen, List.getElem_map]
  have : wn.reservoirNodeIds[k] = nodeId := by
    rw [← hnode]
    exact (List.getD_eq_getElem _ _ (by simpa [WaterNetworkModel.num_reservoirs] using hk)).symm
  rw [this, hres]

/-- Witness for the C2 amended theorem at the concrete network `wnC2`. -/
theorem reservoir_residual_is_head_minus_base_head_witness :
    0 < wnC2.num_reservoirs
      ∧ (reservoirHeadResidual wnC2 [7, 0]).getD 0 0 = (7 : ℝ) - 10 :=
  ⟨by decide,
    reservoir_residual_is_head_minus_base_head wnC2 [7, 0] 0 0 10 (some "pat")
      (by decide) (by decide) rfl⟩

/-- C3: the claim says tank heads and the warm-start state advance only on
converged steps.  In the source, both branches of the convergence test
(lines 195-199) assign `self._X = x`, and `last_tank_head` is overwritten
from the committed heads unconditionally (lines 234-236).  Here a step whose
solver reports flag 2 (non-convergence) still replaces the carried tank head
15 by the new head 16 and replaces the warm-start vector. -/
theorem state_advances_on_nonconverged_step :
    SimStep P3 1 s3 (commitStep P3 1 s3 x3)
      ∧ (commitStep P3 1 s3 x3).last_tank_head ≠ s3.last_tank_head
      ∧ (commitStep P3 1 s3 x3).x ≠ s3.x := by
  refine ⟨SimStep.nonConverged 1 s3 x3 2 rfl (by decide), ?_, ?_⟩
  · simp [commitStep, P3, wn3, x3, s3, WaterNetworkModel.tankNodeIds,
      WaterNetworkModel.num_links, WaterNetworkModel.num_nodes,
      WaterNetworkModel.num_tanks, List.range_succ, NNode.isTank]
  · simp [commitStep, x3, s3]

/-- C10: `run_sim` asserts that conditional controls monitor only tanks
before the main time loop begins (lines 158-165): if some monitored node is
not a `Tank` the run aborts with the `AssertionError` and no loop iteration
runs; if every monitored node is a `Tank` the check passes and the run
proceeds to the loop. -/
theorem run_sim_conditional_controls_gate (P : SimParams) :
    (run_sim P
        = Except.error (PyError.assertionError
            "Scipy simulator only supports conditional controls on Tank.")
      ↔ ¬ ∀ entry ∈ P.wn.conditional_controls,
            ∀ i ∈ entry.2.open_above ++ entry.2.open_below
                ++ entry.2.closed_above ++ entry.2.closed_below,
              (P.wn.nodes.getD i.1 default).isTank = true)
      ∧ (run_sim P = Except.ok ((runLoop P).node_rows, (runLoop P).link_rows)
      ↔ ∀ entry ∈ P.wn.conditional_controls,
          ∀ i ∈ entry.2.open_above ++ entry.2.open_below
              ++ entry.2.closed_above ++ entry.2.closed_below,
            (P.wn.nodes.getD i.1 default).isTank = true) := by
  have hiff : verifyConditionalControlsForTank P.wn = true
      ↔ ∀ entry ∈ P.wn.conditional_controls,
          ∀ i ∈ entry.2.open_above ++ entry.2.open_below
              ++ entry.2.closed_above ++ entry.2.closed_below,
            (P.wn.nodes.getD i.1 default).isTank = true := by
    unfold verifyConditionalControlsForTank
    rw [List.all_eq_true]
    exact forall_congr' fun entry => imp_congr_right fun _ => List.all_eq_true
  by_cases hv : verifyConditionalControlsForTank P.wn = true
  · have hall := hiff.mp hv
    have hrun : run_sim P = Except.ok ((runLoop P).node_rows, (runLoop P).link_rows) := by
      unfold run_sim
      rw [if_pos hv]
    refine ⟨?_, ?_⟩
    · rw [hrun]
      exact iff_of_false (fun h => Except.noConfusion h) (not_not_intro hall)
    · rw [hrun]
      exact iff_of_true rfl hall
  · have hrun : run_sim P = Except.error (PyError.assertionError
        "Scipy simulator only supports conditional controls on Tank.") := by
      unfold run_sim
      rw [if_neg hv]
    refine ⟨?_, ?_⟩
    · rw [hrun]
      exact iff_of_true rfl (fun h => hv (hiff.mpr h))
    · rw [hrun]
      exact iff_of_false (fun h => Except.noConfusion h) (fun h => hv (hiff.mpr h))

/-- Helper: one loop iteration is deterministic — the solver is a function,
and both convergence branches commit the same state. -/
theorem simStep_deterministic (P : SimParams) (t : ℕ) (s s₁ s₂ : LoopState)
    (h₁ : SimStep P t s s₁) (h₂ : SimStep P t s s₂) : s₁ = s₂ := by
  cases h₁ with
  | converged x flag hs hf =>
    cases h₂ with
    | converged x' flag' hs' hf' =>
      have hxy := hs.symm.trans hs'
      injection hxy with hx _
      rw [hx]
    | nonConverged x' flag' hs' hf' =>
      have hxy := hs.symm.trans hs'
      injection hxy with hx hflag
      exact absurd (hflag ▸ hf) hf'
  | nonConverged x flag hs hf =>
    cases h₂ with
    | converged x' flag' hs' hf' =>
      have hxy := hs.symm.trans hs'
      injection hxy with hx hflag
      exact absurd (hflag.symm ▸ hf') hf
    | nonConverged x' flag' hs' hf' =>
      have hxy := hs.symm.trans hs'
      injection hxy with hx _
      rw [hx]

/-- Helper: the whole main loop is deterministic. -/
theorem simRun_deterministic (P : SimParams) :
    ∀ t s r₁, SimRun P t s r₁ → ∀ r₂, SimRun P t s r₂ → r₁ = r₂ := by
  intro t s r₁ h₁
  induction h₁ with
  | done t s h =>
    intro r₂ h₂
    cases h₂
    case done => rfl
    case step =>
      rename_i sa hlt₂ hstep₂ hrest₂
      omega
  | step t s sp spp hlt hstep hrest ih =>
    intro r₂ h₂
    cases h₂
    case done => omega
    case step =>
      rename_i sa hlt₂ hstep₂ hrest₂
      have hss := simStep_deterministic P t s sp sa hstep hstep₂
      subst hss
      exact ih _ hrest₂

/-- C9: two invocations of `run_sim`'s main loop with identical network
inputs, options and external collaborators (the solver, demand and
link-status functions fixed in `SimParams`), both starting from the
initial state built by `__init__`, produce identical node and link results
stores. -/
theorem run_sim_idempotent (P : SimParams) (r₁ r₂ : LoopState)
    (h₁ : SimRun P 0 (initLoopState P.wn) r₁)
    (h₂ : SimRun P 0 (initLoopState P.wn) r₂) :
    r₁.node_rows = r₂.node_rows ∧ r₁.link_rows = r₂.link_rows := by
  have h := simRun_deterministic P 0 (initLoopState P.wn) r₁ h₁ r₂ h₂
  rw [h]
  exact ⟨rfl, rfl⟩

/-- Witness for C9: a complete one-step run of `P9` exists and the theorem
applies to two copies of it. -/
theorem run_sim_idempotent_witness :
    (commitStep P9 0 (initLoopState P9.wn) x3).node_rows
        = (commitStep P9 0 (initLoopState P9.wn) x3).node_rows
      ∧ (commitStep P9 0 (initLoopState P9.wn) x3).link_rows
        = (commitStep P9 0 (initLoopState P9.wn) x3).link_rows :=
  run_sim_idempotent P9 _ _
    (SimRun.step 0 _ _ _ (by decide) (SimStep.converged 0 _ x3 1 rfl rfl)
      (SimRun.done 1 _ rfl))
    (SimRun.step 0 _ _ _ (by decide) (SimStep.converged 0 _ x3 1 rfl rfl)
      (SimRun.done 1 _ rfl))

/-- C7: the assembled tank residual row for tank `k` (monitoring node
`nodeId`) is `head[tank] − (elevation + initial_level)` on the first
timestep (Dirichlet condition) and
`(tank_inflow·Δt·4)/(π·D²) − (head[tank] − last_head[tank])` on every later
timestep. -/
theorem tank_residual_rows (wn : WaterNetworkModel)
    (head tank_inflow last_tank_head : List ℝ) (first_timestep : Bool)
    (dt : ℝ) (k nodeId : ℕ) (elevation init_level diameter : ℝ)
    (hk : k < wn.num_tanks)
    (hnode : wn.tankNodeIds.getD k 0 = nodeId)
    (hid : wn.tankIdOf nodeId = k)
    (htank : wn.nodes.getD nodeId default = .tank elevation init_level diameter) :
    (tankHeadResidual wn head tank_inflow last_tank_head first_timestep dt).getD k 0
      = if first_timestep then
          head.getD nodeId 0 - (elevation + init_level)
        else
          (tank_inflow.getD k 0 * dt * 4.0) / (Real.pi * diameter ^ (2 : ℕ))
            - (head.getD nodeId 0 - last_tank_head.getD k 0) := by
  have hk' : k < wn.tankNodeIds.length := hk
  unfold tankHeadResidual
  rw [List.getD_eq_getElem _ _ (by simpa using hk')]
  rw [List.getElem_map]
  have hnid : wn.tankNodeIds[k] = nodeId := by
    rw [← hnode]
    exact (List.getD_eq_getElem _ _ hk').symm
  rw [hnid, hid, htank]
  cases first_timestep with
  | false => simp
  | true =>
    simp
    ring

/-- Witness for C7 at the concrete network `wn3` (tank at node 1, tank id 0),
on a non-first timestep. -/
theorem tank_residual_rows_witness :
    0 < wn3.num_tanks
      ∧ (tankHeadResidual wn3 [100, 16] [0.3] [15] false 3600).getD 0 0
        = ((0.3 : ℝ) * 3600 * 4.0) / (Real.pi * (2 : ℝ) ^ (2 : ℕ))
            - ((16 : ℝ) - (15 : ℝ)) :=
  ⟨by decide,
    tank_residual_rows wn3 [100, 16] [0.3] [15] false 3600 0 1 10 5 2
      (by decide) (by decide) (by decide) rfl⟩

/-- Helper: the number of indices below `L` avoiding a duplicate-free list
of indices that are all below `L`. -/
theorem length_filter_range_not_mem (L : ℕ) (c : List ℕ) (hnd : c.Nodup)
    (hlt : ∀ i ∈ c, i < L) :
    ((List.range L).filter (fun i => decide (i ∉ c))).length = L - c.length := by
  have hmemperm : List.Perm ((List.range L).filter (fun i => decide (i ∈ c))) c := by
    rw [List.perm_ext_iff_of_nodup (List.Nodup.filter _ (List.nodup_range L)) hnd]
    intro a
    simp only [List.mem_filter, List.mem_range, decide_eq_true_eq]
    exact ⟨fun h => h.2, fun h => ⟨hlt a h, h⟩⟩
  have hin : ((List.range L).filter (fun i => decide (i ∈ c))).length = c.length :=
    hmemperm.length_eq
  have hsplit : ((List.range L).filter (fun i => decide (i ∈ c))).length
      + ((List.range L).filter (fun i => decide (i ∉ c))).length
      = (List.range L).length := by
    rw [← List.countP_eq_length_filter, ← List.countP_eq_length_filter]
    have h2 := List.length_eq_countP_add_countP (fun i => decide (i ∈ c)) (l := List.range L)
    rw [h2]
    congr 1
    apply List.countP_congr
    intro a _
    simp
  rw [List.length_range] at hsplit
  omega

/-- Helper: a duplicate-free list of link indices all below `L` has at most
`L` entries. -/
theorem nodup_bounded_length_le (L : ℕ) (c : List ℕ) (hnd : c.Nodup)
    (hlt : ∀ i ∈ c, i < L) : c.length ≤ L := by
  have hmemperm : List.Perm ((List.range L).filter (fun i => decide (i ∈ c))) c := by
    rw [List.perm_ext_iff_of_nodup (List.Nodup.filter _ (List.nodup_range L)) hnd]
    intro a
    simp only [List.mem_filter, List.mem_range, decide_eq_true_eq]
    exact ⟨fun h => h.2, fun h => ⟨hlt a h, h⟩⟩
  calc c.length = ((List.range L).filter (fun i => decide (i ∈ c))).length :=
        hmemperm.length_eq.symm
    _ ≤ (List.range L).length := List.length_filter_le _ _
    _ = L := List.length_range L

/-- C8: for a duplicate-free set of closed links (all of them valid link
ids), the assembled residual vector has length exactly `2L + N + T + R`, its
blocks appearing in the order node-balance (`N` rows), link head-loss
(`L − |closed|` rows, the closed links' rows omitted), link head-difference
(`L − |closed|` rows), tank evolution (`T` rows), reservoir head fixing
(`R` rows), closed-link flow zero (`|closed|` rows standing in for the
omitted head-loss rows), closed-link headloss zero (`|closed|` rows standing
in for the omitted head-difference rows). -/
theorem hydraulic_equations_residual_shape
    (wn : WaterNetworkModel) (x last_tank_head nodal_demands : List ℝ)
    (first_timestep : Bool) (links_closed : List ℕ) (dt : ℝ)
    (flow headloss head tank_inflow reservoir_demand : List ℝ)
    (hnd : links_closed.Nodup)
    (hlt : ∀ i ∈ links_closed, i < wn.num_links) :
    (nodeBalanceResidual wn flow tank_inflow reservoir_demand nodal_demands).length
        = wn.num_nodes
      ∧ (headlossResidual wn headloss flow links_closed).length
        = wn.num_links - links_closed.length
      ∧ (headResidual wn head headloss links_closed).length
        = wn.num_links - links_closed.length
      ∧ (tankHeadResidual wn head tank_inflow last_tank_head first_timestep dt).length
        = wn.num_tanks
      ∧ (reservoirHeadResidual wn head).length = wn.num_reservoirs
      ∧ (closedLinkFlowResidual flow links_closed).length = links_closed.length
      ∧ (closedLinkHeadlossResidual headloss links_closed).length = links_closed.length
      ∧ (hydraulicEquations wn x last_tank_head nodal_demands first_timestep links_closed dt).length
        = 2 * wn.num_links + wn.num_nodes + wn.num_tanks + wn.num_reservoirs := by
  have hfl : ((List.range wn.links.length).filter
      (fun i => decide (i ∉ links_closed))).length
      = wn.num_links - links_closed.length :=
    length_filter_range_not_mem wn.links.length links_closed hnd hlt
  have hle : links_closed.length ≤ wn.num_links :=
    nodup_bounded_length_le wn.num_links links_closed hnd hlt
  have hfl2 : ((List.range wn.links.length).filter
      (fun i => !decide (i ∈ links_closed))).length
      = wn.num_links - links_closed.length := by
    rw [← hfl]
    congr 1
    apply List.filter_congr
    intro a _
    simp
  refine ⟨?_, ?_, ?_, ?_, ?_, ?_, ?_, ?_⟩
  · simp [nodeBalanceResidual, WaterNetworkModel.num_nodes]
  · simp [headlossResidual, hfl2]
  · simp [headResidual, hfl2]
  · simp [tankHeadResidual, WaterNetworkModel.num_tanks]
  · simp [reservoirHeadResidual, WaterNetworkModel.num_reservoirs]
  · simp [closedLinkFlowResidual]
  · simp [closedLinkHeadlossResidual]
  · simp only [hydraulicEquations, List.length_append]
    simp [nodeBalanceResidual, headlossResidual, headResidual, tankHeadResidual,
      reservoirHeadResidual, closedLinkFlowResidual, closedLinkHeadlossResidual,
      hfl2, WaterNetworkModel.num_nodes, WaterNetworkModel.num_tanks,
      WaterNetworkModel.num_reservoirs]
    omega

/-- Witness for C8 at the concrete network `wn3` with link 0 closed. -/
theorem hydraulic_equations_residual_shape_witness :
    [0].Nodup
      ∧ (hydraulicEquations wn3 x3 [15] [0, 0] false [0] 3600).length
        = 2 * wn3.num_links + wn3.num_nodes + wn3.num_tanks + wn3.num_reservoirs :=
  ⟨by decide,
    (hydraulic_equations_residual_shape wn3 x3 [15] [0, 0] false [0] 3600
      (x3.take 1) ((x3.drop 1).take 1) ((x3.drop 2).take 2)
      ((x3.drop 4).take 1) ((x3.drop 5).take 1)
      (by decide) (by decide)).2.2.2.2.2.2.2⟩

/-- C6 counterexample: the claim asserts exact continuity of value and first
derivative at both thresholds, but the numerically fitted cubic does not meet
the other pieces exactly: already at `q₁` the linear piece `f1` and the cubic
`Px` differ (by about `1.6·10⁻¹⁶`), so the conjunction is false. -/
theorem lossfunc_exact_continuity_fails :
    ¬ (f1 q1 = Px q1 ∧ d_f1 q1 = d_Px q1 ∧ f2 q2 = Px q2 ∧ d_f2 q2 = d_Px q2) := by
  intro h
  have h1 := h.1
  unfold f1 Px q1 at h1
  norm_num at h1

/-- C6 amended: the regularized head-loss pieces are continuous in value and
first derivative at both thresholds only approximately — the pieces agree to
within `10⁻¹⁵` in value and within `10⁻¹³` (at `q₁`) resp. `2·10⁻¹³` (at
`q₂`) in derivative, not exactly. -/
theorem lossfunc_approximate_continuity :
    |Px q1 - f1 q1| < 1e-15 ∧ |d_Px q1 - d_f1 q1| < 1e-13
      ∧ |f2 q2 - Px q2| < 1e-15 ∧ |d_f2 q2 - d_Px q2| < 2e-13 := by
  have hq2 : (0 : ℝ) < q2 := by norm_num [q2]
  have hypos : 0 < q2 ^ ((213 : ℝ)/250) := Real.rpow_pos_of_pos hq2 _
  have hypow : (q2 ^ ((213 : ℝ)/250)) ^ (250 : ℕ) = q2 ^ (213 : ℕ) := by
    rw [← Real.rpow_natCast (q2 ^ ((213 : ℝ)/250)) 250, ← Real.rpow_mul hq2.le,
      ← Real.rpow_natCast q2 213]
    norm_num
  have hylo : (0.0118672380813764 : ℝ) < q2 ^ ((213 : ℝ)/250) := by
    by_contra hcon
    push_neg at hcon
    have hle : (q2 ^ ((213 : ℝ)/250)) ^ (250 : ℕ)
        ≤ (0.0118672380813764 : ℝ) ^ (250 : ℕ) :=
      pow_le_pow_left₀ hypos.le hcon 250
    rw [hypow] at hle
    have hbig : (0.0118672380813764 : ℝ) ^ (250 : ℕ) < q2 ^ (213 : ℕ) := by
      norm_num [q2]
    linarith
  have hyhi : q2 ^ ((213 : ℝ)/250) < 0.0118672380813767 := by
    by_contra hcon
    push_neg at hcon
    have hle : (0.0118672380813767 : ℝ) ^ (250 : ℕ)
        ≤ (q2 ^ ((213 : ℝ)/250)) ^ (250 : ℕ) :=
      pow_le_pow_left₀ (by norm_num) hcon 250
    rw [hypow] at hle
    have hbig : q2 ^ (213 : ℕ) < (0.0118672380813767 : ℝ) ^ (250 : ℕ) := by
      norm_num [q2]
    linarith
  refine ⟨?_, ?_, ?_, ?_⟩
  · rw [abs_sub_lt_iff]
    constructor <;> (unfold Px f1 q1; norm_num)
  · rw [abs_sub_lt_iff]
    constructor <;> (unfold d_Px d_f1 q1; norm_num)
  · have hf2 : f2 q2 = q2 * q2 ^ ((213 : ℝ)/250) := by
      unfold f2
      rw [show (1.852 : ℝ) = 1 + 213/250 by norm_num, Real.rpow_add hq2, Real.rpow_one]
      ring
    rw [abs_sub_lt_iff, hf2]
    constructor
    · have h1 : q2 * (q2 ^ ((213 : ℝ)/250)) < q2 * 0.0118672380813767 :=
        mul_lt_mul_of_pos_left hyhi hq2
      have h2 : q2 * (0.0118672380813767 : ℝ) - Px q2 < 1e-15 := by
        unfold Px q2
        norm_num
      linarith
    · have h1 : q2 * (0.0118672380813764 : ℝ) < q2 * (q2 ^ ((213 : ℝ)/250)) :=
        mul_lt_mul_of_pos_left hylo hq2
      have h2 : Px q2 - q2 * (0.0118672380813764 : ℝ) < 1e-15 := by
        unfold Px q2
        norm_num
      linarith
  · have hd : d_f2 q2 = 1.852 * q2 ^ ((213 : ℝ)/250) := by
      unfold d_f2
      rw [show (0.852 : ℝ) = 213/250 by norm_num]
    rw [abs_sub_lt_iff, hd]
    constructor
    · have h1 : (1.852 : ℝ) * (q2 ^ ((213 : ℝ)/250)) < 1.852 * 0.0118672380813767 :=
        mul_lt_mul_of_pos_left hyhi (by norm_num)
      have h2 : (1.852 : ℝ) * 0.0118672380813767 - d_Px q2 < 2e-13 := by
        unfold d_Px q2
        norm_num
      linarith
    · have h1 : (1.852 : ℝ) * 0.0118672380813764 < 1.852 * (q2 ^ ((213 : ℝ)/250)) :=
        mul_lt_mul_of_pos_left hylo (by norm_num)
      have h2 : d_Px q2 - (1.852 : ℝ) * 0.0118672380813764 < 2e-13 := by
        unfold d_Px q2
        norm_num
      linarith
